import Mathlib

/-!
# Verification of the Support Ticket Resolution Agent workflow

Shallow embedding of the ticket-resolution pipeline implemented in
`support_agent/` (graph.py, nodes.py, state.py, gemini_client.py,
rag_system.py, utils.py) and `app.py`, together with proofs settling the
spec claims about it.

External effects (HTTP calls to the language-model service, the RAG
similarity computation, the CSV sink, clock reads) are modelled as
explicit outcome values / environment parameters threaded into the
otherwise pure node functions, exactly mirroring each function's
`try/except` branch structure.
-/

namespace SupportAgent

/-! ## Python string primitives

The source manipulates Python `str` values with `.strip()`, `.upper()`,
`.lower()`, `in` (substring test), `.replace(old, new)` and `len`.
These are embedded as executable functions on `List Char` / `String`.
(Char.toUpper / Char.toLower agree with Python on the ASCII text used
throughout the repository.)
-/

/-- Python `needle in haystack` on lists of characters: infix test. -/
def listIsInfix (needle : List Char) : List Char → Bool
  | [] => needle.isEmpty
  | c :: rest => needle.isPrefixOf (c :: rest) || listIsInfix needle rest

/-- Python `needle in haystack` for strings (substring containment). -/
def pyIn (needle haystack : String) : Bool :=
  listIsInfix needle.data haystack.data

/-- Strip leading and trailing whitespace from a character list. -/
def trimChars (l : List Char) : List Char :=
  ((l.dropWhile Char.isWhitespace).reverse.dropWhile Char.isWhitespace).reverse

/-- Python `s.strip()`. -/
def pyStrip (s : String) : String := ⟨trimChars s.data⟩

/-- Python `s.upper()`. -/
def pyUpper (s : String) : String := ⟨s.data.map Char.toUpper⟩

/-- Python `s.lower()`. -/
def pyLower (s : String) : String := ⟨s.data.map Char.toLower⟩

/-- Fuel-driven worker for `pyReplace`: replaces non-overlapping
occurrences of `needle` left to right, as Python `str.replace` does.
The fuel (initialised to the haystack length) keeps the recursion
structural so that the kernel can evaluate it. -/
def replaceAux (needle repl : List Char) : Nat → List Char → List Char
  | 0, l => l
  | _ + 1, [] => []
  | fuel + 1, c :: rest =>
    if !needle.isEmpty && needle.isPrefixOf (c :: rest) then
      repl ++ replaceAux needle repl fuel ((c :: rest).drop needle.length)
    else
      c :: replaceAux needle repl fuel rest

/-- Python `s.replace(old, new)`. -/
def pyReplace (old new s : String) : String :=
  ⟨replaceAux old.data new.data s.data.length s.data⟩

/-! ## Data model (state.py) -/

/-- `TicketInfo` (state.py): the immutable user input. -/
structure TicketInfo where
  subject : String
  description : String
deriving DecidableEq, Repr

/-- `ContextDocument` (state.py): a retrieved knowledge-base excerpt.
`relevance_score` (a Python float produced by cosine similarity) is
modelled as a rational number. -/
structure ContextDocument where
  content : String
  source : String
  relevance_score : ℚ
  category : String
deriving DecidableEq, Repr

/-- `ReviewFeedback` (state.py): one review verdict. -/
structure ReviewFeedback where
  status : String
  feedback : String
  timestamp : String
  attempt : Nat
deriving DecidableEq, Repr

/-- `SupportTicketState` (state.py): the aggregate threaded through all
nodes.  `final_output` is typed `str` in the source; the two places that
could dynamically store Python `None` into it (finalization with no
draft) are modelled with `""`, and are unreachable in graph runs because
generation always precedes finalization. -/
structure SupportTicketState where
  ticket : TicketInfo
  category : String
  retrieved_context : List ContextDocument
  drafts : List String
  current_draft : Option String
  review_feedback : List ReviewFeedback
  review_status : Option String
  latest_feedback : Option String
  final_output : String
  retries : Nat
  status : String
  escalated : Bool
  processing_start_time : Option String
  processing_end_time : Option String
  node_execution_log : List String
deriving DecidableEq, Repr

/-- `create_initial_state` (state.py).  `now` stands for the
`datetime.now().isoformat()` clock read. -/
def create_initial_state (ticket : TicketInfo) (now : String) : SupportTicketState :=
  { ticket := ticket
    category := ""
    retrieved_context := []
    drafts := []
    current_draft := none
    review_feedback := []
    review_status := none
    latest_feedback := none
    final_output := ""
    retries := 0
    status := "initialized"
    escalated := false
    processing_start_time := some now
    processing_end_time := none
    node_execution_log := [] }

/-- `log_state_transition` (state.py): appends one audit-log entry. -/
def log_state_transition (s : SupportTicketState) (now node_name action : String) :
    SupportTicketState :=
  { s with node_execution_log :=
      s.node_execution_log ++ [now ++ " - " ++ node_name ++ ": " ++ action] }

/-! ## External-call outcomes

Each `try`-wrapped external interaction is modelled by an outcome value:
`ApiResult` is the result of one HTTP call inside gemini_client.py
(`ok content` = status 200 with the given message content, `httpError` =
non-200 status, `exn` = a raised exception).  The node-level outcome
types additionally carry the module-availability branch (the
`gemini_client` / `rag_system` globals of nodes.py being `None`) and a
`nodeError` constructor for an exception raised inside the node's own
`try` block. -/

inductive ApiResult where
  | ok (content : String)
  | httpError
  | exn
deriving DecidableEq, Repr

inductive ClassifyOutcome where
  | client (r : ApiResult)
  | noClient
  | nodeError
deriving DecidableEq, Repr

inductive RetrieveOutcome where
  | ok (docs : List ContextDocument)
  | noRag
  | nodeError
deriving DecidableEq, Repr

inductive GenOutcome where
  | ok (response : String)
  | noClient
  | nodeError
deriving DecidableEq, Repr

inductive ReviewOutcome where
  | client (r : ApiResult)
  | noClient
  | nodeError
deriving DecidableEq, Repr

inductive RefineOutcome where
  | ok (docs : List ContextDocument)
  | noRag
  | nodeError
deriving DecidableEq, Repr

inductive EscOutcome where
  | ok
  | nodeError
deriving DecidableEq, Repr

inductive FinOutcome where
  | ok
  | nodeError
deriving DecidableEq, Repr

/-! ## Gemini client (gemini_client.py) -/

/-- The closed category set checked by `GeminiClient.classify_ticket`. -/
def categoryList : List String := ["Billing", "Technical", "Security", "General"]

/-- `GeminiClient.classify_ticket` (gemini_client.py:109-163) as a
function of the HTTP outcome: on status 200 the stripped message content
is returned if it is one of the four categories and coerced to
`"General"` otherwise; a non-200 status or an exception yields
`"General"`. -/
def GeminiClient.classify_ticket (r : ApiResult) : String :=
  match r with
  | .ok content =>
    let category := pyStrip content
    if !(categoryList.contains category) then "General" else category
  | .httpError => "General"
  | .exn => "General"

/-- Result record of `GeminiClient.review_response`. -/
structure ReviewResult where
  status : String
  feedback : String
deriving DecidableEq, Repr

/-- `GeminiClient.review_response` (gemini_client.py:417-465) as a
function of the HTTP outcome.  On status 200 the verdict is parsed from
the stripped content: the `"APPROVED"`-substring test on the uppercased
text runs first, then the `"REJECTED"` test, and anything else defaults
to approved; non-200 status and exceptions default to approved with the
system-unavailable message. -/
def GeminiClient.review_response (r : ApiResult) : ReviewResult :=
  match r with
  | .ok content =>
    let review_text := pyStrip content
    if pyIn "APPROVED" (pyUpper review_text) then
      { status := "approved", feedback := "Response meets quality standards" }
    else if pyIn "REJECTED" (pyUpper review_text) then
      { status := "rejected", feedback := pyStrip (pyReplace "REJECTED:" "" review_text) }
    else
      { status := "approved", feedback := "Review completed successfully" }
  | .httpError =>
    { status := "approved", feedback := "Review system unavailable, proceeding with response" }
  | .exn =>
    { status := "approved", feedback := "Review system unavailable, proceeding with response" }

/-! ## Node functions (nodes.py) -/

/-- `_fallback_classify` (nodes.py:376-387): keyword heuristic over the
lowercased concatenation of subject and description. -/
def fallback_classify (subject description : String) : String :=
  let text := pyLower (subject ++ " " ++ description)
  if ["bill", "payment", "charge", "refund", "price"].any (fun w => pyIn w text) then
    "Billing"
  else if ["api", "error", "bug", "technical", "integration"].any (fun w => pyIn w text) then
    "Technical"
  else if ["security", "password", "login", "access", "authentication"].any
      (fun w => pyIn w text) then
    "Security"
  else
    "General"

/-- `_fallback_response` (nodes.py:389-400): deterministic draft used
when the Gemini client is unavailable.  (Its `context_docs` argument is
unused in the source template.) -/
def fallback_response (ticket : TicketInfo) (category : String)
    (_context_docs : List ContextDocument) : String :=
  "Thank you for contacting our " ++ pyLower category ++ " support team.\n\n" ++
  "We have received your inquiry regarding: " ++ ticket.subject ++ "\n\n" ++
  "Our team is currently reviewing your request and will provide a detailed response within our standard response time. \n\n" ++
  "If this is an urgent matter, please contact our priority support line.\n\n" ++
  "Best regards,\nSupport Team"

/-- `classify_ticket_node` (nodes.py:42-77).  The `client` outcome runs
`GeminiClient.classify_ticket` on the HTTP result, `noClient` takes the
`_fallback_classify` branch, `nodeError` takes the `except` branch
(category defaulted to `"General"`). -/
def classify_ticket_node (o : ClassifyOutcome) (now : String)
    (s : SupportTicketState) : SupportTicketState :=
  match o with
  | .client r =>
    let category := GeminiClient.classify_ticket r
    log_state_transition { s with category := category, status := "classified" }
      now "classify_ticket" ("Classified as " ++ category)
  | .noClient =>
    let category := fallback_classify s.ticket.subject s.ticket.description
    log_state_transition { s with category := category, status := "classified" }
      now "classify_ticket" ("Classified as " ++ category)
  | .nodeError =>
    log_state_transition { s with category := "General", status := "classified" }
      now "classify_ticket" "Error occurred, defaulted to General"

/-- `retrieve_context_node` (nodes.py:79-118).  `ok docs` carries the
value returned by `rag_system.retrieve_context` (which itself returns
`[]` on internal failure), `noRag` is the `rag_system is None` branch,
`nodeError` the `except` branch. -/
def retrieve_context_node (o : RetrieveOutcome) (now : String)
    (s : SupportTicketState) : SupportTicketState :=
  match o with
  | .ok docs =>
    log_state_transition { s with retrieved_context := docs, status := "context_retrieved" }
      now "retrieve_context" ("Retrieved " ++ toString docs.length ++ " documents")
  | .noRag =>
    log_state_transition { s with retrieved_context := [], status := "context_retrieved" }
      now "retrieve_context" "Retrieved 0 documents"
  | .nodeError =>
    log_state_transition { s with retrieved_context := [], status := "context_retrieved" }
      now "retrieve_context" "Error occurred, proceeding without context"

/-- `generate_response_node` (nodes.py:120-188).  `ok response` carries
the draft produced by the external generation chain
(`generate_intelligent_response` plus `enhance_response_with_context`),
`noClient` takes the `_fallback_response` branch, `nodeError` the
`except` branch with its apology template. -/
def generate_response_node (o : GenOutcome) (now : String)
    (s : SupportTicketState) : SupportTicketState :=
  match o with
  | .ok response =>
    log_state_transition
      { s with drafts := s.drafts ++ [response], current_draft := some response,
               status := "response_generated" }
      now "generate_response" "Response generated successfully"
  | .noClient =>
    let response := fallback_response s.ticket s.category s.retrieved_context
    log_state_transition
      { s with drafts := s.drafts ++ [response], current_draft := some response,
               status := "response_generated" }
      now "generate_response" "Response generated successfully"
  | .nodeError =>
    let response := "I apologize, but I'm experiencing technical difficulties. Please contact our support team directly for assistance with your " ++
      pyLower s.category ++ " inquiry."
    log_state_transition
      { s with drafts := s.drafts ++ [response], current_draft := some response,
               status := "response_generated" }
      now "generate_response" "Error occurred, generated fallback response"

/-- Python truthiness of `state['current_draft']` in the guard
`if gemini_client and current_response:` — `None` and `""` are falsy. -/
def draftTruthy (s : SupportTicketState) : Bool :=
  match s.current_draft with
  | none => false
  | some d => d ≠ ""

/-- `review_response_node` (nodes.py:190-252).  When the client is
available and the current draft truthy, the verdict comes from
`GeminiClient.review_response`; otherwise the inline
`{"approved", "Automated review completed"}` fallback applies.  The
`except` branch (`nodeError`) appends the default-approved
system-unavailable entry.  Every branch appends exactly one
`ReviewFeedback` with `attempt = len(review_feedback) + 1`. -/
def review_response_node (o : ReviewOutcome) (now : String)
    (s : SupportTicketState) : SupportTicketState :=
  match o with
  | .nodeError =>
    let fb : ReviewFeedback :=
      { status := "approved"
        feedback := "Review system unavailable, proceeding with response"
        timestamp := now
        attempt := s.review_feedback.length + 1 }
    log_state_transition
      { s with review_feedback := s.review_feedback ++ [fb],
               review_status := some "approved",
               latest_feedback := some fb.feedback,
               status := "reviewed" }
      now "review_response" "Error occurred, defaulted to approved"
  | .client r =>
    let review_result :=
      if draftTruthy s then GeminiClient.review_response r
      else { status := "approved", feedback := "Automated review completed" }
    let fb : ReviewFeedback :=
      { status := review_result.status
        feedback := review_result.feedback
        timestamp := now
        attempt := s.review_feedback.length + 1 }
    log_state_transition
      { s with review_feedback := s.review_feedback ++ [fb],
               review_status := some review_result.status,
               latest_feedback := some review_result.feedback,
               status := "reviewed" }
      now "review_response" ("Review: " ++ review_result.status)
  | .noClient =>
    let review_result : ReviewResult :=
      { status := "approved", feedback := "Automated review completed" }
    let fb : ReviewFeedback :=
      { status := review_result.status
        feedback := review_result.feedback
        timestamp := now
        attempt := s.review_feedback.length + 1 }
    log_state_transition
      { s with review_feedback := s.review_feedback ++ [fb],
               review_status := some review_result.status,
               latest_feedback := some review_result.feedback,
               status := "reviewed" }
      now "review_response" ("Review: " ++ review_result.status)

/-- `refine_context_node` (nodes.py:254-296).  `ok docs` carries the
widened retrieval result (`top_k=5`, `min_relevance=0.05`), which
replaces `retrieved_context` entirely; `noRag` re-assigns the existing
context; `nodeError` leaves it untouched.  No branch modifies
`retries`. -/
def refine_context_node (o : RefineOutcome) (now : String)
    (s : SupportTicketState) : SupportTicketState :=
  match o with
  | .ok docs =>
    log_state_transition { s with retrieved_context := docs, status := "context_refined" }
      now "refine_context" ("Refined to " ++ toString docs.length ++ " documents")
  | .noRag =>
    log_state_transition
      { s with retrieved_context := s.retrieved_context, status := "context_refined" }
      now "refine_context" ("Refined to " ++ toString s.retrieved_context.length ++ " documents")
  | .nodeError =>
    log_state_transition { s with status := "context_refined" }
      now "refine_context" "Error occurred, keeping existing context"

/-! ## Escalation sink (utils.py) and terminal nodes -/

/-- The `escalation_data` dictionary built by `escalate_ticket_node`
(nodes.py:319-327). -/
structure EscalationData where
  timestamp : String
  ticket_subject : String
  ticket_description : String
  category : String
  retries : Nat
  review_feedback : List ReviewFeedback
  final_drafts : List String
deriving DecidableEq, Repr

/-- `save_escalation_log` (utils.py:122-164): the CSV row actually
appended for an escalation, as the ordered list of (column, value)
pairs written by `csv.DictWriter` from `flattened_data`.  Note the row
carries only these seven columns. -/
def save_escalation_log (d : EscalationData) : List (String × String) :=
  [ ("timestamp", d.timestamp),
    ("ticket_subject", d.ticket_subject),
    ("ticket_description", d.ticket_description),
    ("category", d.category),
    ("retries", toString d.retries),
    ("review_count", toString d.review_feedback.length),
    ("draft_count", toString d.final_drafts.length) ]

/-- The fixed escalation message of nodes.py:312-316. -/
def escalationMessage : String :=
  "This ticket has been escalated to our human support team for personalized assistance. A support specialist will review your case and provide a detailed response within our standard response time. Thank you for your patience."

/-- `escalate_ticket_node` (nodes.py:298-344), returning the updated
state together with the list of CSV rows emitted to the escalation
sink.  The `except` branch (`nodeError`) still marks the state
escalated but emits no row. -/
def escalate_ticket_node (o : EscOutcome) (now : String)
    (s : SupportTicketState) : SupportTicketState × List (List (String × String)) :=
  match o with
  | .ok =>
    let escalation_data : EscalationData :=
      { timestamp := now
        ticket_subject := s.ticket.subject
        ticket_description := s.ticket.description
        category := s.category
        retries := s.retries
        review_feedback := s.review_feedback
        final_drafts := s.drafts }
    ( log_state_transition
        { s with final_output := escalationMessage, escalated := true, status := "escalated" }
        now "escalate_ticket" "Ticket escalated to human agent",
      [save_escalation_log escalation_data] )
  | .nodeError =>
    ( log_state_transition
        { s with final_output := "Your ticket has been forwarded to our support team.",
                 escalated := true, status := "escalated" }
        now "escalate_ticket" "Error occurred during escalation",
      [] )

/-- `finalize_response_node` (nodes.py:346-372).  Both branches copy the
current draft into `final_output` (the source stores Python `None` when
no draft exists, modelled as `""`; the `except` branch's
`state.get('current_draft', ...)` default never fires because the key is
always present). -/
def finalize_response_node (o : FinOutcome) (now : String)
    (s : SupportTicketState) : SupportTicketState :=
  match o with
  | .ok =>
    log_state_transition
      { s with final_output := s.current_draft.getD "", status := "resolved",
               processing_end_time := some now }
      now "finalize_response" "Workflow completed successfully"
  | .nodeError =>
    log_state_transition
      { s with final_output := s.current_draft.getD "", status := "resolved",
               processing_end_time := some now }
      now "finalize_response" "Error occurred during finalization"

/-! ## Input validation (utils.py, app.py) -/

/-- `validate_ticket_input` (utils.py:236-277) restricted to the case of
a dict holding string `subject` and `description` fields (the
field-presence and type checks of the source always pass then).
Returns `(is_valid, error_message)`. -/
def validate_ticket_input (subject description : String) : Bool × String :=
  if pyStrip subject = "" then (false, "Subject must be a non-empty string")
  else if pyStrip description = "" then (false, "Description must be a non-empty string")
  else if 200 < subject.length then (false, "Subject must be 200 characters or less")
  else if 5000 < description.length then (false, "Description must be 5000 characters or less")
  else (true, "")

/-- The only pre-workflow gate actually executed by the UI
(app.py:445-458): the submitted ticket proceeds to
`process_ticket_async` — which creates the initial `WorkflowState` via
`create_initial_state` — unless subject or description strip to the
empty string.  `validate_ticket_input` is never called. -/
def app_submit_gate (subject description : String) : Bool :=
  !(pyStrip subject = "" || pyStrip description = "")

/-! ## Graph and router (graph.py) -/

/-- `review_routing` (graph.py:128-158): the conditional edge out of the
review node.  `state.get('review_status', 'failed')` is modelled with
`Option.getD`. -/
def review_routing (s : SupportTicketState) : String :=
  let review_status := s.review_status.getD "failed"
  if review_status = "approved" then "finalize_response"
  else if s.retries < 2 then "refine_context"
  else "escalate_ticket"

/-- `increment_retry_and_generate` (graph.py:172-175).  This function is
defined in the source but never registered on any node or edge of the
graph — `refine_context → generate_response` is added as a plain
unconditional edge (graph.py:177) — so no step of the compiled workflow
ever executes it. -/
def increment_retry_and_generate (s : SupportTicketState) : SupportTicketState :=
  { s with retries := s.retries + 1 }

/-- The nodes of the compiled LangGraph, plus the implicit END state. -/
inductive Node where
  | classify_ticket
  | retrieve_context
  | generate_response
  | review_response
  | refine_context
  | escalate_ticket
  | finalize_response
  | «END»
deriving DecidableEq, Repr

/-- The conditional-edge mapping of graph.py:161-169, sending the string
returned by `review_routing` to the next node.  (`review_routing` only
ever returns the three mapped keys; the final else is the
`escalate_ticket` key.) -/
def routeTarget (r : String) : Node :=
  if r = "finalize_response" then .finalize_response
  else if r = "refine_context" then .refine_context
  else .escalate_ticket

/-- One `run()` of the workflow is driven by the fixed external world it
interacts with: one outcome per external touch point, indexed where the
call can happen several times (generation and review by how many drafts
/ feedback entries exist when the node fires, refinement likewise).
`now` stands for every clock read. -/
structure Oracle where
  classify : ClassifyOutcome
  retrieve : RetrieveOutcome
  generate : Nat → GenOutcome
  review : Nat → ReviewOutcome
  refine : Nat → RefineOutcome
  escalate : EscOutcome
  finalize : FinOutcome
  now : String

/-- A configuration of the compiled graph: the node about to execute,
the current state, and the escalation rows emitted so far. -/
structure Config where
  node : Node
  state : SupportTicketState
  rows : List (List (String × String))
deriving DecidableEq, Repr

/-- One super-step of the compiled graph (graph.py:113-181): execute the
current node and follow its outgoing edge.  All edges are unconditional
except the conditional edge after `review_response`, which applies
`review_routing` to the state the review node just produced.  The edge
`refine_context → generate_response` is the plain edge of graph.py:177
(it does not run `increment_retry_and_generate`). -/
def step (o : Oracle) (c : Config) : Config :=
  match c.node with
  | .classify_ticket =>
    { c with node := .retrieve_context,
             state := classify_ticket_node o.classify o.now c.state }
  | .retrieve_context =>
    { c with node := .generate_response,
             state := retrieve_context_node o.retrieve o.now c.state }
  | .generate_response =>
    { c with node := .review_response,
             state := generate_response_node (o.generate c.state.drafts.length) o.now c.state }
  | .review_response =>
    let s' := review_response_node (o.review c.state.review_feedback.length) o.now c.state
    { c with node := routeTarget (review_routing s'), state := s' }
  | .refine_context =>
    { c with node := .generate_response,
             state := refine_context_node (o.refine c.state.review_feedback.length) o.now c.state }
  | .escalate_ticket =>
    let res := escalate_ticket_node o.escalate o.now c.state
    { node := .«END», state := res.1, rows := c.rows ++ res.2 }
  | .finalize_response =>
    { c with node := .«END», state := finalize_response_node o.finalize o.now c.state }
  | .«END» => c

/-- Running the compiled graph on a ticket for `n` super-steps from the
entry point (`set_entry_point("classify_ticket")`, graph.py:116), with
the initial state built by `create_initial_state`. -/
def runGraph (o : Oracle) (t : TicketInfo) (n : Nat) : Config :=
  (step o)^[n] { node := .classify_ticket, state := create_initial_state t o.now, rows := [] }

/-! ## RAG system (rag_system.py)

The TF-IDF machinery (vectorizers, cosine similarity) is the external
numeric collaborator; it is modelled by an environment carrying the
per-category document stores, the similarity score assigned to each
(query, document) pair, and which categories have a fitted index
(`category in self.vectorizers and self.document_vectors[category] is
not None`). -/

/-- A raw knowledge-base document as stored in `document_stores`
(`source` may be absent, triggering the `f"{category}_doc_{idx}"`
default). -/
structure KBDoc where
  content : String
  source : Option String
deriving DecidableEq, Repr

/-- The external retrieval environment. -/
structure RAGEnv where
  stores : String → List KBDoc
  sim : String → String → ℚ
  vectorized : String → Bool

/-- Descending-by-relevance stable insertion, the building block used to
model Python's stable `list.sort(key=lambda x: x['relevance_score'],
reverse=True)`. -/
def insertDesc (a : ContextDocument) : List ContextDocument → List ContextDocument
  | [] => [a]
  | b :: rest =>
    if b.relevance_score < a.relevance_score then a :: b :: rest
    else b :: insertDesc a rest

/-- Stable descending sort by `relevance_score` (insertion sort). -/
def sortDesc : List ContextDocument → List ContextDocument
  | [] => []
  | a :: rest => insertDesc a (sortDesc rest)

/-- `RAGSystem._search_category` (rag_system.py:179-231): score every
document of the category, keep those with `similarity >=
min_relevance`, sort descending by relevance and take `top_k`.  The
empty-store / missing-index guards return `[]`. -/
def RAGSystem.search_category (env : RAGEnv) (query category : String)
    (top_k : Nat) (min_relevance : ℚ) : List ContextDocument :=
  if !(env.vectorized category) || (env.stores category).isEmpty then []
  else
    let scored := (env.stores category).enum.map fun p =>
      ContextDocument.mk p.2.content
        (p.2.source.getD (category ++ "_doc_" ++ toString p.1))
        (env.sim query p.2.content) category
    let results := scored.filter fun d => min_relevance ≤ d.relevance_score
    (sortDesc results).take top_k

/-- `RAGSystem._get_related_categories` (rag_system.py:233-253). -/
def RAGSystem.get_related_categories (primary_category : String) : List String :=
  if primary_category = "Billing" then ["General"]
  else if primary_category = "Technical" then ["General", "Security"]
  else if primary_category = "Security" then ["Technical", "General"]
  else if primary_category = "General" then ["Billing", "Technical", "Security"]
  else ["General"]

/-- The related-category loop of rag_system.py:156-165: extend the
accumulated results from each fitted related category (with the
`remaining_k` computed before the loop) and break once `top_k` results
are accumulated. -/
def relatedLoop (env : RAGEnv) (query : String) (remaining_k top_k : Nat)
    (min_relevance : ℚ) : List String → List ContextDocument → List ContextDocument
  | [], acc => acc
  | cat :: rest, acc =>
    if env.vectorized cat then
      let acc' := acc ++ RAGSystem.search_category env query cat remaining_k min_relevance
      if top_k ≤ acc'.length then acc'
      else relatedLoop env query remaining_k top_k min_relevance rest acc'
    else relatedLoop env query remaining_k top_k min_relevance rest acc

/-- The primary-category search of rag_system.py:141-149: search the
requested category when it has a fitted index, otherwise fall back to
searching `General`. -/
def retrievePrimary (env : RAGEnv) (query category : String)
    (top_k : Nat) (min_relevance : ℚ) : List ContextDocument :=
  if env.vectorized category then
    RAGSystem.search_category env query category top_k min_relevance
  else if env.vectorized "General" then
    RAGSystem.search_category env query "General" top_k min_relevance
  else []

/-- `all_results` as accumulated by rag_system.py:139-165: the primary
results, extended through the related-category loop when
`include_related` is set and the primary search fell short of
`top_k`. -/
def retrieveAll (env : RAGEnv) (query category : String) (top_k : Nat)
    (include_related : Bool) (min_relevance : ℚ) : List ContextDocument :=
  let primary := retrievePrimary env query category top_k min_relevance
  if include_related && primary.length < top_k then
    relatedLoop env query (top_k - primary.length) top_k min_relevance
      (RAGSystem.get_related_categories category) primary
  else primary

/-- `RAGSystem.retrieve_context` (rag_system.py:111-177): sort the
accumulated results by descending relevance and truncate to `top_k`.
`fail` is the `except` branch (any exception inside the body), which
returns `[]`.  Signature defaults in the source: `top_k=3`,
`include_related=False`, `min_relevance=0.1`. -/
def RAGSystem.retrieve_context (env : RAGEnv) (fail : Bool) (query category : String)
    (top_k : Nat) (include_related : Bool) (min_relevance : ℚ) : List ContextDocument :=
  if fail then []
  else (sortDesc (retrieveAll env query category top_k include_related min_relevance)).take top_k

/-- `RAGSystem.enhance_query` (rag_system.py:255-275): subject weighted
double, then lowercased and stripped. -/
def RAGSystem.enhance_query (subject description : String) : String :=
  pyStrip (pyLower (subject ++ " " ++ subject ++ " " ++ description))

/-! ### Sorting lemmas for the retrieval model -/

/-- The descending-relevance order on context documents. -/
def relGe (a b : ContextDocument) : Prop := b.relevance_score ≤ a.relevance_score

lemma mem_insertDesc {a x : ContextDocument} {l : List ContextDocument} :
    x ∈ insertDesc a l ↔ x = a ∨ x ∈ l := by
  induction l with
  | nil => simp [insertDesc]
  | cons b rest ih =>
    simp only [insertDesc]
    split
    · simp [List.mem_cons]
    · simp only [List.mem_cons, ih]
      tauto

lemma sorted_insertDesc {a : ContextDocument} {l : List ContextDocument}
    (h : l.Sorted relGe) : (insertDesc a l).Sorted relGe := by
  induction l with
  | nil => simp [insertDesc, List.sorted_singleton]
  | cons b rest ih =>
    rw [List.sorted_cons] at h
    obtain ⟨hb, hrest⟩ := h
    simp only [insertDesc]
    split
    · rename_i hlt
      rw [List.sorted_cons]
      refine ⟨?_, List.sorted_cons.mpr ⟨hb, hrest⟩⟩
      intro x hx
      rcases List.mem_cons.mp hx with rfl | hx
      · exact le_of_lt hlt
      · exact le_trans (hb x hx) (le_of_lt hlt)
    · rename_i hnlt
      rw [List.sorted_cons]
      refine ⟨?_, ih hrest⟩
      intro x hx
      rcases mem_insertDesc.mp hx with rfl | hx
      · exact not_lt.mp hnlt
      · exact hb x hx

lemma sorted_sortDesc (l : List ContextDocument) : (sortDesc l).Sorted relGe := by
  induction l with
  | nil => simp [sortDesc]
  | cons a rest ih => exact sorted_insertDesc ih

lemma mem_sortDesc {x : ContextDocument} {l : List ContextDocument} :
    x ∈ sortDesc l ↔ x ∈ l := by
  induction l with
  | nil => simp [sortDesc]
  | cons a rest ih =>
    simp only [sortDesc, mem_insertDesc, ih, List.mem_cons]

lemma search_category_score {env : RAGEnv} {query category : String}
    {top_k : Nat} {min_relevance : ℚ} :
    ∀ d ∈ RAGSystem.search_category env query category top_k min_relevance,
      min_relevance ≤ d.relevance_score := by
  intro d hd
  unfold RAGSystem.search_category at hd
  split at hd
  · simp at hd
  · have hd' := mem_sortDesc.mp (List.mem_of_mem_take hd)
    have := (List.mem_filter.mp hd').2
    exact of_decide_eq_true this

lemma relatedLoop_score {env : RAGEnv} {query : String} {remaining_k top_k : Nat}
    {min_relevance : ℚ} :
    ∀ (cats : List String) (acc : List ContextDocument)
      (_ : ∀ d ∈ acc, min_relevance ≤ d.relevance_score),
      ∀ d ∈ relatedLoop env query remaining_k top_k min_relevance cats acc,
        min_relevance ≤ d.relevance_score := by
  intro cats
  induction cats with
  | nil =>
    intro acc hacc d hd
    simp only [relatedLoop] at hd
    exact hacc d hd
  | cons c rest ih =>
    intro acc hacc d hd
    simp only [relatedLoop] at hd
    split at hd
    · have hacc' : ∀ x ∈ acc ++ RAGSystem.search_category env query c remaining_k min_relevance,
          min_relevance ≤ x.relevance_score := by
        intro x hx
        rcases List.mem_append.mp hx with h | h
        · exact hacc x h
        · exact search_category_score x h
      split at hd
      · exact hacc' d hd
      · exact ih _ hacc' d hd
    · exact ih _ hacc d hd

lemma retrievePrimary_score {env : RAGEnv} {query category : String}
    {top_k : Nat} {min_relevance : ℚ} :
    ∀ d ∈ retrievePrimary env query category top_k min_relevance,
      min_relevance ≤ d.relevance_score := by
  intro d hd
  unfold retrievePrimary at hd
  split at hd
  · exact search_category_score d hd
  · split at hd
    · exact search_category_score d hd
    · simp at hd

lemma retrieveAll_score {env : RAGEnv} {query category : String} {top_k : Nat}
    {include_related : Bool} {min_relevance : ℚ} :
    ∀ d ∈ retrieveAll env query category top_k include_related min_relevance,
      min_relevance ≤ d.relevance_score := by
  intro d hd
  simp only [retrieveAll] at hd
  split at hd
  · exact relatedLoop_score _ _ retrievePrimary_score d hd
  · exact retrievePrimary_score d hd

/-! ## Frame lemmas: no node function ever modifies `retries`

The only `retries` mutation in the repository is the one inside
`increment_retry_and_generate`, which the graph never executes. -/

lemma classify_retries (o : ClassifyOutcome) (now : String) (s : SupportTicketState) :
    (classify_ticket_node o now s).retries = s.retries := by
  cases o <;> rfl

lemma retrieve_retries (o : RetrieveOutcome) (now : String) (s : SupportTicketState) :
    (retrieve_context_node o now s).retries = s.retries := by
  cases o <;> rfl

lemma generate_retries (o : GenOutcome) (now : String) (s : SupportTicketState) :
    (generate_response_node o now s).retries = s.retries := by
  cases o <;> rfl

lemma review_retries (o : ReviewOutcome) (now : String) (s : SupportTicketState) :
    (review_response_node o now s).retries = s.retries := by
  cases o <;> rfl

lemma refine_retries (o : RefineOutcome) (now : String) (s : SupportTicketState) :
    (refine_context_node o now s).retries = s.retries := by
  cases o <;> rfl

lemma escalate_retries (o : EscOutcome) (now : String) (s : SupportTicketState) :
    (escalate_ticket_node o now s).1.retries = s.retries := by
  cases o <;> rfl

lemma finalize_retries (o : FinOutcome) (now : String) (s : SupportTicketState) :
    (finalize_response_node o now s).retries = s.retries := by
  cases o <;> rfl

lemma step_retries (o : Oracle) (c : Config) :
    (step o c).state.retries = c.state.retries := by
  obtain ⟨n, s, rows⟩ := c
  cases n <;>
    simp [step, classify_retries, retrieve_retries, generate_retries, review_retries,
      refine_retries, escalate_retries, finalize_retries]

lemma runGraph_retries (o : Oracle) (t : TicketInfo) :
    ∀ n, (runGraph o t n).state.retries = 0 := by
  intro n
  induction n with
  | zero => rfl
  | succ n ih =>
    rw [runGraph, Function.iterate_succ_apply', ← runGraph, step_retries]
    exact ih

/-! ## Concrete executions

`oReject` is the external world in which every call succeeds and the
reviewer rejects every draft; `oRejectThenApprove` rejects the first
draft and approves the second. -/

def ticket0 : TicketInfo :=
  { subject := "Login failure", description := "Cannot access my account" }

def oReject : Oracle :=
  { classify := .client (.ok "Technical")
    retrieve := .ok []
    generate := fun _ => .ok "Draft reply"
    review := fun _ => .client (.ok "REJECTED: insufficient grounding")
    refine := fun _ => .ok []
    escalate := .ok
    finalize := .ok
    now := "T0" }

def oRejectThenApprove : Oracle :=
  { oReject with
    review := fun k =>
      if k = 0 then .client (.ok "REJECTED: needs more detail")
      else .client (.ok "APPROVED") }

/-- The configurations reachable under `oReject`: the graph keeps
cycling through the non-terminal nodes, with a truthy draft whenever a
review is about to run. -/
def Alive (c : Config) : Prop :=
  c.node = .classify_ticket ∨ c.node = .retrieve_context ∨ c.node = .generate_response ∨
    (c.node = .review_response ∧ draftTruthy c.state = true) ∨ c.node = .refine_context

lemma review_client_status (r : ApiResult) (now : String) (s : SupportTicketState)
    (hd : draftTruthy s = true) :
    (review_response_node (.client r) now s).review_status =
      some (GeminiClient.review_response r).status := by
  simp [review_response_node, hd, log_state_transition]

lemma reject_parse :
    (GeminiClient.review_response (.ok "REJECTED: insufficient grounding")).status =
      "rejected" := by decide

lemma alive_step {c : Config} (hret : c.state.retries = 0) (h : Alive c) :
    Alive (step oReject c) := by
  obtain ⟨n, s, rows⟩ := c
  simp only [Alive] at h ⊢
  rcases h with h | h | h | ⟨h, hd⟩ | h <;> simp only at h hret <;> subst h
  · exact Or.inr (Or.inl rfl)
  · exact Or.inr (Or.inr (Or.inl rfl))
  · exact Or.inr (Or.inr (Or.inr (Or.inl ⟨rfl, rfl⟩)))
  · refine Or.inr (Or.inr (Or.inr (Or.inr ?_)))
    show routeTarget (review_routing
      (review_response_node (oReject.review s.review_feedback.length) oReject.now s)) =
        .refine_context
    have hstat := review_client_status (.ok "REJECTED: insufficient grounding") oReject.now s hd
    have hr := review_retries (oReject.review s.review_feedback.length) oReject.now s
    simp only [oReject] at hstat hr ⊢
    rw [review_routing, hstat, reject_parse]
    simp [hr, hret, routeTarget]
  · exact Or.inr (Or.inr (Or.inl rfl))

lemma alive_runGraph (n : Nat) : Alive (runGraph oReject ticket0 n) := by
  induction n with
  | zero => exact Or.inl rfl
  | succ n ih =>
    rw [runGraph, Function.iterate_succ_apply', ← runGraph]
    exact alive_step (runGraph_retries oReject ticket0 n) ih

/-! ## Frame lemmas: only the escalation node touches `escalated` -/

lemma classify_escalated (o : ClassifyOutcome) (now : String) (s : SupportTicketState) :
    (classify_ticket_node o now s).escalated = s.escalated := by
  cases o <;> rfl

lemma retrieve_escalated (o : RetrieveOutcome) (now : String) (s : SupportTicketState) :
    (retrieve_context_node o now s).escalated = s.escalated := by
  cases o <;> rfl

lemma generate_escalated (o : GenOutcome) (now : String) (s : SupportTicketState) :
    (generate_response_node o now s).escalated = s.escalated := by
  cases o <;> rfl

lemma review_escalated (o : ReviewOutcome) (now : String) (s : SupportTicketState) :
    (review_response_node o now s).escalated = s.escalated := by
  cases o <;> rfl

lemma refine_escalated (o : RefineOutcome) (now : String) (s : SupportTicketState) :
    (refine_context_node o now s).escalated = s.escalated := by
  cases o <;> rfl

lemma finalize_escalated (o : FinOutcome) (now : String) (s : SupportTicketState) :
    (finalize_response_node o now s).escalated = s.escalated := by
  cases o <;> rfl

/-- One super-step preserves "escalated iff some escalation row has been
emitted", provided the sink write succeeds when escalation runs. -/
lemma step_escalated_iff (o : Oracle) (ho : o.escalate = EscOutcome.ok) (c : Config)
    (h : c.state.escalated = true ↔ c.rows ≠ []) :
    (step o c).state.escalated = true ↔ (step o c).rows ≠ [] := by
  obtain ⟨n, s, rows⟩ := c
  cases n with
  | classify_ticket => simpa [step, classify_escalated] using h
  | retrieve_context => simpa [step, retrieve_escalated] using h
  | generate_response => simpa [step, generate_escalated] using h
  | review_response => simpa [step, review_escalated] using h
  | refine_context => simpa [step, refine_escalated] using h
  | escalate_ticket => simp [step, ho, escalate_ticket_node, log_state_transition]
  | finalize_response => simpa [step, finalize_escalated] using h
  | «END» => exact h

/-- A fully concrete pre-escalation state: three drafts all rejected,
one retrieved context document. -/
def escState : SupportTicketState :=
  { ticket := { subject := "Refund request", description := "I was charged twice" }
    category := "Billing"
    retrieved_context :=
      [{ content := "Refund policy document", source := "billing_kb",
         relevance_score := (1 : ℚ) / 2, category := "Billing" }]
    drafts := ["draftA1", "draftA2", "draftA3"]
    current_draft := some "draftA3"
    review_feedback :=
      [⟨"rejected", "too vague", "T1", 1⟩, ⟨"rejected", "still vague", "T2", 2⟩,
       ⟨"rejected", "unhelpful", "T3", 3⟩]
    review_status := some "rejected"
    latest_feedback := some "unhelpful"
    final_output := ""
    retries := 0
    status := "reviewed"
    escalated := false
    processing_start_time := some "T0"
    processing_end_time := none
    node_execution_log := [] }

/-! ## Claim theorems -/

/-- **C1** (code bug).  The claim says `run()` terminates for every
ticket within 3 generation attempts with a resolved/escalated status.
The code violates it: under the external world `oReject` — every call
succeeds, the reviewer rejects every draft — the compiled graph never
reaches the END state, no matter how many super-steps execute: every
configuration still sits at one of the five looping nodes and `retries`
is still 0, because the increment function
`increment_retry_and_generate` is never wired into the graph.
(In production, LangGraph aborts such a run with a recursion-limit
exception, which `process_ticket_async` surfaces as status `'error'`,
not resolved/escalated.) -/
theorem C1_reject_loop_never_reaches_END (n : Nat) :
    (runGraph oReject ticket0 n).node ∈
      [Node.classify_ticket, Node.retrieve_context, Node.generate_response,
       Node.review_response, Node.refine_context] ∧
    (runGraph oReject ticket0 n).state.retries = 0 := by
  refine ⟨?_, runGraph_retries oReject ticket0 n⟩
  have h := alive_runGraph n
  rcases h with h | h | h | ⟨h, _⟩ | h <;> rw [h] <;> decide

/-- Instance of `C1_reject_loop_never_reaches_END` at 25 super-steps
(LangGraph's default recursion limit): the run is still not at END. -/
theorem C1_reject_loop_never_reaches_END_witness :
    (runGraph oReject ticket0 25).node ∈
      [Node.classify_ticket, Node.retrieve_context, Node.generate_response,
       Node.review_response, Node.refine_context] ∧
    (runGraph oReject ticket0 25).state.retries = 0 :=
  C1_reject_loop_never_reaches_END 25

/-- **C2** (code bug).  The claim says a rejected review increments
`retries` by exactly 1 as part of the `refine_context` transition, so
that the third rejection always routes to escalation.  Evaluating the
compiled graph under `oReject`: after ten super-steps three reviews have
run, all three verdicts are rejections, yet the graph is entering
`refine_context` yet again (not `escalate_ticket`) and `retries` is
still 0 — the transition never increments it
(`increment_retry_and_generate` is defined at graph.py:172-175 but never
registered on any node or edge). -/
theorem C2_third_rejection_routes_to_refine_not_escalate :
    (runGraph oReject ticket0 10).node = Node.refine_context ∧
    (runGraph oReject ticket0 10).state.review_feedback.map ReviewFeedback.status =
      ["rejected", "rejected", "rejected"] ∧
    (runGraph oReject ticket0 10).state.retries = 0 := by
  decide

/-- **C3** (code bug).  The claim says `len(drafts) == 1 + retries`
beyond the first generation and at every terminal state.  Under
`oRejectThenApprove` (first draft rejected, second approved) the run
terminates resolved after one refinement cycle with two drafts but
`retries` still 0, violating the invariant at a terminal state:
2 ≠ 1 + 0. -/
theorem C3_drafts_invariant_fails_at_terminal_state :
    (runGraph oRejectThenApprove ticket0 8).node = Node.«END» ∧
    (runGraph oRejectThenApprove ticket0 8).state.status = "resolved" ∧
    (runGraph oRejectThenApprove ticket0 8).state.drafts.length = 2 ∧
    (runGraph oRejectThenApprove ticket0 8).state.retries = 0 := by
  decide

/-- **C4** (counterexample).  The claim asserts the escalation row
contains, at minimum, the context-document count and serialized copies
of drafts, feedback, and context sources.  Escalating `escState`
(which holds 1 context document, drafts `draftA1..3`, feedback
`"too vague"` etc. from source `"billing_kb"`): exactly one row is
emitted — and no cell of it equals the context-document count `"1"`,
and no cell contains the text of the first draft, of the first
feedback, or the context source name.  The row written by
`save_escalation_log` simply has no such columns. -/
theorem C4_row_lacks_context_count_and_serialized_copies :
    (escalate_ticket_node EscOutcome.ok "T4" escState).2.length = 1 ∧
    ((escalate_ticket_node EscOutcome.ok "T4" escState).2.all fun row =>
      row.all fun kv =>
        !(kv.2 = toString escState.retrieved_context.length) &&
        !(pyIn "draftA1" kv.2) && !(pyIn "too vague" kv.2) &&
        !(pyIn "billing_kb" kv.2)) = true := by
  decide

/-- **C4** (amended).  What does hold: (1) over any run in which the
sink write succeeds whenever escalation fires, an escalation row has
been emitted iff the state has `escalated = True`; (2) the escalation
handler's success path emits exactly one row whose columns are exactly
timestamp, subject, description, category, retries, review count and
draft count, and marks the state escalated; (3) the handler's
internal-error path emits no row yet still marks the state escalated
(sink/handler failure never blocks the in-memory outcome). -/
theorem C4_escalation_row_iff_escalated :
    (∀ o : Oracle, o.escalate = EscOutcome.ok → ∀ t n,
      ((runGraph o t n).state.escalated = true ↔ (runGraph o t n).rows ≠ [])) ∧
    (∀ now s,
      (escalate_ticket_node EscOutcome.ok now s).2 =
        [[("timestamp", now), ("ticket_subject", s.ticket.subject),
          ("ticket_description", s.ticket.description), ("category", s.category),
          ("retries", toString s.retries),
          ("review_count", toString s.review_feedback.length),
          ("draft_count", toString s.drafts.length)]] ∧
      (escalate_ticket_node EscOutcome.ok now s).1.escalated = true) ∧
    (∀ now s,
      (escalate_ticket_node EscOutcome.nodeError now s).2 = [] ∧
      (escalate_ticket_node EscOutcome.nodeError now s).1.escalated = true) := by
  refine ⟨?_, fun now s => ⟨rfl, rfl⟩, fun now s => ⟨rfl, rfl⟩⟩
  intro o ho t n
  induction n with
  | zero => simp [runGraph, create_initial_state]
  | succ n ih =>
    rw [runGraph, Function.iterate_succ_apply', ← runGraph]
    exact step_escalated_iff o ho _ ih

/-- Instance of `C4_escalation_row_iff_escalated` with its hypothesis
discharged at `oReject` (whose sink write succeeds). -/
theorem C4_escalation_row_iff_escalated_witness :
    oReject.escalate = EscOutcome.ok ∧
    ((runGraph oReject ticket0 0).state.escalated = true ↔
      (runGraph oReject ticket0 0).rows ≠ []) :=
  ⟨rfl, C4_escalation_row_iff_escalated.1 oReject rfl ticket0 0⟩

/-- A 201-character subject, over the 200-character limit that
`validate_ticket_input` enforces. -/
def longSubject : String := ⟨List.replicate 201 'a'⟩

set_option maxRecDepth 4096 in
/-- **C5** (code bug).  The claim says malformed tickets — including
oversized fields — are rejected before the workflow starts.  But
`validate_ticket_input` is never called anywhere in the repository: the
only pre-workflow gate is app.py's non-emptiness check.  For the
201-character subject the gate passes, `process_ticket_async` builds the
initial WorkflowState via `create_initial_state`, and the graph runs —
even though `validate_ticket_input` would have rejected the very same
ticket. -/
theorem C5_oversized_ticket_enters_workflow :
    app_submit_gate longSubject "Please reset my account" = true ∧
    validate_ticket_input longSubject "Please reset my account" =
      (false, "Subject must be 200 characters or less") ∧
    (create_initial_state
        ⟨pyStrip longSubject, pyStrip "Please reset my account"⟩ "T0").ticket =
      ⟨longSubject, "Please reset my account"⟩ ∧
    (create_initial_state
        ⟨pyStrip longSubject, pyStrip "Please reset my account"⟩ "T0").status =
      "initialized" := by
  decide

/-- **C6** (counterexample).  The claim says that on transport/external
failure the category is determined by the local keyword heuristic, so a
"payment" ticket would get `Billing`.  In the code, a transport failure
inside `GeminiClient.classify_ticket` returns `'General'` directly; the
keyword heuristic `_fallback_classify` (which would indeed say
`Billing` here) only runs when the client object itself is unavailable
(failed initialization). -/
theorem C6_transport_failure_yields_general_not_heuristic :
    (classify_ticket_node (ClassifyOutcome.client ApiResult.httpError) "T0"
        (create_initial_state
          ⟨"payment issue", "I was charged twice for my subscription"⟩ "T0")).category =
      "General" ∧
    fallback_classify "payment issue" "I was charged twice for my subscription" =
      "Billing" := by
  decide

lemma fallback_classify_mem (subject description : String) :
    fallback_classify subject description ∈ categoryList := by
  simp only [fallback_classify]
  split
  · exact (by decide : ("Billing" : String) ∈ categoryList)
  · split
    · exact (by decide : ("Technical" : String) ∈ categoryList)
    · split
      · exact (by decide : ("Security" : String) ∈ categoryList)
      · exact (by decide : ("General" : String) ∈ categoryList)

/-- **C6** (amended).  What does hold: the classification stage is total
and closed — every outcome yields a category in
{Billing, Technical, Security, General}; an HTTP error or exception in
the classifier call yields `General` (not the heuristic); the keyword
heuristic decides the category exactly when the client is unavailable;
and any 200-response content outside the category set is coerced to
`General`. -/
theorem C6_classification_total_and_closed :
    (∀ o now s, (classify_ticket_node o now s).category ∈ categoryList) ∧
    (∀ now s,
      (classify_ticket_node (ClassifyOutcome.client ApiResult.httpError) now s).category =
        "General") ∧
    (∀ now s,
      (classify_ticket_node (ClassifyOutcome.client ApiResult.exn) now s).category =
        "General") ∧
    (∀ now s,
      (classify_ticket_node ClassifyOutcome.noClient now s).category =
        fallback_classify s.ticket.subject s.ticket.description) ∧
    (∀ content now s, categoryList.contains (pyStrip content) = false →
      (classify_ticket_node (ClassifyOutcome.client (ApiResult.ok content)) now s).category =
        "General") := by
  refine ⟨?_, fun now s => rfl, fun now s => rfl, fun now s => rfl, ?_⟩
  · intro o now s
    cases o with
    | noClient => exact fallback_classify_mem s.ticket.subject s.ticket.description
    | nodeError => exact (by decide : ("General" : String) ∈ categoryList)
    | client r =>
      cases r with
      | httpError => exact (by decide : ("General" : String) ∈ categoryList)
      | exn => exact (by decide : ("General" : String) ∈ categoryList)
      | ok content =>
        show GeminiClient.classify_ticket (ApiResult.ok content) ∈ categoryList
        simp only [GeminiClient.classify_ticket]
        split
        · exact (by decide : ("General" : String) ∈ categoryList)
        · rename_i h
          simp only [Bool.not_eq_true', Bool.not_eq_false] at h
          exact List.mem_of_elem_eq_true h
  · intro content now s h
    show GeminiClient.classify_ticket (ApiResult.ok content) = "General"
    simp only [GeminiClient.classify_ticket, h]
    rfl

/-- Instance of `C6_classification_total_and_closed` discharging its
out-of-set hypothesis at the content `"Nonsense"`. -/
theorem C6_classification_total_and_closed_witness :
    categoryList.contains (pyStrip "Nonsense") = false ∧
    (classify_ticket_node (ClassifyOutcome.client (ApiResult.ok "Nonsense")) "T0"
        (create_initial_state ⟨"a", "b"⟩ "T0")).category = "General" :=
  ⟨by decide,
    C6_classification_total_and_closed.2.2.2.2 "Nonsense" "T0"
      (create_initial_state ⟨"a", "b"⟩ "T0") (by decide)⟩

/-- The review outcomes in which the claim expects a default-approved
entry: reviewer transport failure / exception, unavailable client,
node-level error, or a 200 response whose text contains neither the
APPROVED nor the REJECTED token. -/
def reviewUnavailableOrUnclear : ReviewOutcome → Bool
  | .nodeError => true
  | .noClient => true
  | .client .httpError => true
  | .client .exn => true
  | .client (.ok content) =>
    !(pyIn "APPROVED" (pyUpper (pyStrip content))) &&
      !(pyIn "REJECTED" (pyUpper (pyStrip content)))

/-- **C7** (confirmed).  Every execution of the review node appends
exactly one `ReviewFeedback` entry whose `attempt` equals
`len(review_feedback) + 1` at append time, and whenever the reviewer
fails or the verdict is unparseable/ambiguous the appended entry is
approved. -/
theorem C7_review_appends_one_default_approved_entry :
    ∀ o now s, ∃ fb : ReviewFeedback,
      (review_response_node o now s).review_feedback = s.review_feedback ++ [fb] ∧
      fb.attempt = s.review_feedback.length + 1 ∧
      (reviewUnavailableOrUnclear o = true → fb.status = "approved") := by
  intro o now s
  cases o with
  | nodeError => exact ⟨_, rfl, rfl, fun _ => rfl⟩
  | noClient => exact ⟨_, rfl, rfl, fun _ => rfl⟩
  | client r =>
    refine ⟨_, rfl, rfl, ?_⟩
    intro h
    by_cases hd : draftTruthy s = true
    · simp only [hd, if_true]
      cases r with
      | httpError => rfl
      | exn => rfl
      | ok content =>
        simp only [reviewUnavailableOrUnclear, Bool.and_eq_true, Bool.not_eq_true'] at h
        obtain ⟨h1, h2⟩ := h
        simp [GeminiClient.review_response, h1, h2]
    · simp only [Bool.not_eq_true] at hd
      simp [hd]

/-- Instance of `C7_review_appends_one_default_approved_entry` at an
ambiguous 200-response, with the hypothesis discharged. -/
theorem C7_review_appends_one_default_approved_entry_witness :
    ∃ fb : ReviewFeedback,
      (review_response_node (ReviewOutcome.client (ApiResult.ok "hmm, unclear verdict"))
          "T5" escState).review_feedback = escState.review_feedback ++ [fb] ∧
      fb.attempt = escState.review_feedback.length + 1 ∧
      fb.status = "approved" := by
  obtain ⟨fb, h1, h2, h3⟩ :=
    C7_review_appends_one_default_approved_entry
      (ReviewOutcome.client (ApiResult.ok "hmm, unclear verdict")) "T5" escState
  exact ⟨fb, h1, h2, h3 (by decide)⟩

/-- **C9** (confirmed).  The refinement node always sets status
`context_refined` and never touches `retries`; on success it replaces
`retrieved_context` wholesale with the new result (no merging), and on
the no-client / error paths the prior `retrieved_context` is kept
unchanged. -/
theorem C9_refine_replaces_context_and_preserves_retries :
    (∀ o now s, (refine_context_node o now s).status = "context_refined" ∧
      (refine_context_node o now s).retries = s.retries) ∧
    (∀ docs now s,
      (refine_context_node (RefineOutcome.ok docs) now s).retrieved_context = docs) ∧
    (∀ now s,
      (refine_context_node RefineOutcome.noRag now s).retrieved_context =
        s.retrieved_context) ∧
    (∀ now s,
      (refine_context_node RefineOutcome.nodeError now s).retrieved_context =
        s.retrieved_context) := by
  refine ⟨fun o now s => ⟨?_, refine_retries o now s⟩,
    fun docs now s => rfl, fun now s => rfl, fun now s => rfl⟩
  cases o <;> rfl

/-- **C10** (confirmed).  The `"APPROVED"` substring test on the
uppercased verdict text runs before the `"REJECTED"` test, so any
reviewer text containing "approved" in any casing — including text that
also contains "REJECTED" — parses as an approval. -/
theorem C10_approved_substring_wins :
    ∀ content, pyIn "APPROVED" (pyUpper (pyStrip content)) = true →
      GeminiClient.review_response (ApiResult.ok content) =
        { status := "approved", feedback := "Response meets quality standards" } := by
  intro content h
  simp [GeminiClient.review_response, h]

/-- Instance of `C10_approved_substring_wins` at a verdict containing
both tokens, lowercase "approved" included: it still parses as an
approval. -/
theorem C10_approved_substring_wins_witness :
    pyIn "APPROVED" (pyUpper (pyStrip "NOT approved - REJECTED: missing details")) = true ∧
    GeminiClient.review_response (ApiResult.ok "NOT approved - REJECTED: missing details") =
      { status := "approved", feedback := "Response meets quality standards" } :=
  ⟨by decide, C10_approved_substring_wins "NOT approved - REJECTED: missing details" (by decide)⟩

/-- **C8** (confirmed).  Retrieval returns at most `top_k` documents,
each scoring at least `min_relevance`, sorted in descending relevance
order; the failure branch of `retrieve_context` and the error branch of
the retrieval node both produce the empty context. -/
theorem C8_retrieval_bounded_filtered_sorted :
    (∀ env fail query category top_k include_related min_relevance,
      (RAGSystem.retrieve_context env fail query category top_k include_related
          min_relevance).length ≤ top_k ∧
      (∀ d ∈ RAGSystem.retrieve_context env fail query category top_k include_related
          min_relevance, min_relevance ≤ d.relevance_score) ∧
      (RAGSystem.retrieve_context env fail query category top_k include_related
          min_relevance).Sorted relGe) ∧
    (∀ env query category top_k include_related min_relevance,
      RAGSystem.retrieve_context env true query category top_k include_related
        min_relevance = []) ∧
    (∀ now s,
      (retrieve_context_node RetrieveOutcome.nodeError now s).retrieved_context = []) := by
  refine ⟨?_, fun env query category top_k include_related min_relevance => rfl,
    fun now s => rfl⟩
  intro env fail query category top_k include_related min_relevance
  cases fail with
  | true => refine ⟨by simp [RAGSystem.retrieve_context], ?_, ?_⟩ <;>
      simp [RAGSystem.retrieve_context, List.Sorted]
  | false =>
    have heq : RAGSystem.retrieve_context env false query category top_k include_related
        min_relevance =
        (sortDesc (retrieveAll env query category top_k include_related
          min_relevance)).take top_k := rfl
    refine ⟨?_, ?_, ?_⟩
    · rw [heq, List.length_take]
      exact min_le_left _ _
    · intro d hd
      rw [heq] at hd
      exact retrieveAll_score d (mem_sortDesc.mp (List.mem_of_mem_take hd))
    · rw [heq]
      exact List.Pairwise.sublist (List.take_sublist _ _) (sorted_sortDesc _)

/-- A tiny concrete retrieval environment, used to instantiate
`C8_retrieval_bounded_filtered_sorted`. -/
def env0 : RAGEnv :=
  { stores := fun c =>
      if c = "Technical" then [⟨"api error handling guide", some "kb_tech_1"⟩,
        ⟨"general faq", none⟩] else []
    sim := fun _ content => if content = "api error handling guide" then (3 : ℚ) / 10
      else (1 : ℚ) / 20
    vectorized := fun c => c = "Technical" }

/-- Instance of `C8_retrieval_bounded_filtered_sorted` at the concrete
environment `env0` with the source's default parameters
(`top_k = 3`, `min_relevance = 0.1`). -/
theorem C8_retrieval_bounded_filtered_sorted_witness :
    (RAGSystem.retrieve_context env0 false "query" "Technical" 3 true ((1 : ℚ) / 10)).length ≤ 3 ∧
    (∀ d ∈ RAGSystem.retrieve_context env0 false "query" "Technical" 3 true ((1 : ℚ) / 10),
      (1 : ℚ) / 10 ≤ d.relevance_score) ∧
    (RAGSystem.retrieve_context env0 false "query" "Technical" 3 true
      ((1 : ℚ) / 10)).Sorted relGe :=
  C8_retrieval_bounded_filtered_sorted.1 env0 false "query" "Technical" 3 true ((1 : ℚ) / 10)

end SupportAgent
